import Mathlib

/-!
# Verification of the openmct-yamcs telemetry core

Shallow embedding of the two core components of the repository:

* `ObjectProvider` — the dictionary-tree builder of
  `src/providers/object-provider.js` (`YamcsObjectProvider`), together with a
  small state machine for its lazy, memoized asynchronous build
  (`getTelemetryDictionary` / `fetchTelemetryDictionary`).
* `Realtime` — the realtime subscription engine of
  `src/providers/realtime-telemetry-provider.js`
  (`RealtimeTelemetryProvider`), modelled as a step function over an
  explicit engine state, driven by a list of events; outbound payloads and
  scheduled reconnect waits are collected as outputs.

JavaScript numbers that only ever hold small non-negative integers are
modelled as `Nat`; JS objects used as string-keyed maps are modelled as
association lists in insertion order; JS exceptions are modelled by a
success flag paired with the state at the moment the exception escapes
(JS instance-field mutations persist past a throw).
-/

namespace ObjectProvider

/-- Modelled from the spec: `utils.js` is not under `src/`.  The identifier
codec replaces the path separator `/` by a sentinel character (`~`) not
otherwise legal in a qualified-name segment (spec §2, §4.1). -/
def qualifiedNameToId (name : String) : String :=
  String.mk (name.data.map (fun c => if c == '/' then '~' else c))

/-- Modelled from the spec: inverse transform of `qualifiedNameToId`
(spec §4.1, exact inverse). -/
def idToQualifiedName (id : String) : String :=
  String.mk (id.data.map (fun c => if c == '~' then '/' else c))

/-- Modelled from the spec: `const.js` is not under `src/`.  The three leaf
kinds of spec §3; three distinct string constants. -/
def TELEMETRY_OBJECT_TYPE : String := "numeric-telemetry"

/-- Modelled from the spec: see `TELEMETRY_OBJECT_TYPE`. -/
def STRING_OBJECT_TYPE : String := "string-telemetry"

/-- Modelled from the spec: see `TELEMETRY_OBJECT_TYPE`. -/
def IMAGE_OBJECT_TYPE : String := "image-telemetry"

/-- JS `String.prototype.lastIndexOf` for a single character: the largest
index holding `c`, or `-1` when absent. -/
def lastIndexOfChar (s : String) (c : Char) : Int :=
  (List.range s.length).foldl
    (fun acc i => if s.toList.getD i ' ' == c then Int.ofNat i else acc) (-1)

/-- JS `String.prototype.substring(0, e)`: negative `e` is clamped to 0. -/
def jsSubstringTo (s : String) (e : Int) : String :=
  String.mk (s.toList.take (Int.toNat e))

/-- One entry of a parameter's `alias` list: `{namespace, name}`.
`namespace` is a Lean keyword, rendered `ns`. -/
structure AliasEntry where
  ns : String
  name : String
deriving Repr, DecidableEq

mutual
/-- A Yamcs parameter record as consumed by `object-provider.js`:
`name`, `qualifiedName`, optional `alias` list (field `aliases`; `alias` is a Lean keyword) and optional `type`
(absent lists model absent JS fields — iteration over `undefined` is
empty in all the code paths used). -/
inductive Parameter : Type where
  | mk (name : String) (qualifiedName : String) (aliases : List AliasEntry)
       (type : Option PType) : Parameter

/-- A parameter's `type` field: `engType` plus the `member` list (empty
models an absent `member`). -/
inductive PType : Type where
  | mk (engType : String) (member : List Parameter) : PType
end

def Parameter.name : Parameter → String
  | .mk n _ _ _ => n

def Parameter.qualifiedName : Parameter → String
  | .mk _ q _ _ => q

def Parameter.aliases : Parameter → List AliasEntry
  | .mk _ _ a _ => a

def Parameter.type : Parameter → Option PType
  | .mk _ _ _ t => t

def PType.engType : PType → String
  | .mk e _ => e

def PType.member : PType → List Parameter
  | .mk _ m => m

/-- An OpenMCT identifier `{key, namespace}`. -/
structure Identifier where
  key : String
  ns : String
deriving Repr, DecidableEq

/-- One value descriptor of a telemetry object's `telemetry.values` array.
`hints` is the JS hints object as an association list. -/
structure ValueField where
  key : String
  name : String
  hints : List (String × Nat)
  format : Option String
  source : Option String
deriving Repr, DecidableEq

/-- An object of the provider's `objects` mapping.  Folder objects carry
`composition`; telemetry leaves carry `telemetry` values. -/
structure Obj where
  identifier : Identifier
  name : String
  type : String
  location : Option String
  composition : Option (List Identifier)
  telemetry : Option (List ValueField)
deriving Repr, DecidableEq

/-- The provider's `objects` field: a JS object keyed by identifier key,
modelled as an association list in insertion order. -/
abbrev ObjMap := List (String × Obj)

/-- JS `this.objects[key] = object`: overwrite in place if present,
else append. -/
def setObj (m : ObjMap) (k : String) (o : Obj) : ObjMap :=
  match m with
  | [] => [(k, o)]
  | (k', o') :: rest =>
    if k' == k then (k, o) :: rest else (k', o') :: setObj rest k o

/-- JS `this.objects[key]` lookup. -/
def getObj (m : ObjMap) (k : String) : Option Obj :=
  match m with
  | [] => none
  | (k', o') :: rest => if k' == k then some o' else getObj rest k

/-- `parent.composition.push(id)` where `parent` is the object stored at
key `k`: `none` models the `TypeError` thrown when the parent is absent or
has no `composition` array. -/
def pushComposition (m : ObjMap) (k : String) (id : Identifier) :
    Option ObjMap :=
  match getObj m k with
  | none => none
  | some o =>
    match o.composition with
    | none => none
    | some comp => some (setObj m k { o with composition := some (comp ++ [id]) })

/-- `isSuppressed`: some alias has namespace `OpenMCT:omit`
(`object-provider.js` lines 170–174). -/
def isSuppressed (p : Parameter) : Bool :=
  p.aliases.any (fun a => a.ns == "OpenMCT:omit")

/-- `getParameterType` (`object-provider.js` lines 242–258): first an
`OpenMCT:type` alias wins; built-in entries without type info are numeric;
`integer`/`float` engineering types are numeric; everything else string. -/
def getParameterType (p : Parameter) : String :=
  match p.aliases.find? (fun a => a.ns == "OpenMCT:type") with
  | some a => a.name
  | none =>
    match p.type with
    | none => TELEMETRY_OBJECT_TYPE
    | some t =>
      if t.engType == "integer" || t.engType == "float" then
        TELEMETRY_OBJECT_TYPE
      else STRING_OBJECT_TYPE

/-- The default `telemetry.values` array built for every non-aggregate
parameter (`object-provider.js` lines 197–216). -/
def defaultValues : List ValueField :=
  [ { key := "value", name := "Value", hints := [("range", 1)],
      format := none, source := none },
    { key := "utc", name := "Timestamp", hints := [("domain", 1)],
      format := some "iso", source := some "timestamp" } ]

/-- Whether `addParameter` takes the aggregate branch for `p`
(lines 187–190): the parameter has a type whose `engType` is
`aggregate`. -/
def isAggregateParam (p : Parameter) : Bool :=
  match p.type with
  | some t => t.engType == "aggregate"
  | none => false

/-- The object constructed by `addParameter` (lines 177–224) before it is
stored: a folder for aggregates, otherwise a typed telemetry leaf whose
value-field hints/format depend on the computed type. -/
def mkParameterObj (p : Parameter) (qualifiedName : String) (pre : String) :
    Obj :=
  let id := qualifiedNameToId qualifiedName
  let name := pre ++ p.name
  if isAggregateParam p then
    { identifier := ⟨id, "taxonomy"⟩, name := name, type := "folder",
      location := none, composition := some [], telemetry := none }
  else
    let ty := getParameterType p
    let values :=
      if ty == STRING_OBJECT_TYPE then
        defaultValues.map (fun v =>
          if v.key == "value" then { v with hints := [] } else v)
      else if ty == IMAGE_OBJECT_TYPE then
        defaultValues.map (fun v =>
          if v.key == "value" then
            { v with hints := [("image", 1)], format := some "image" }
          else v)
      else defaultValues
    { identifier := ⟨id, "taxonomy"⟩, name := name, type := ty,
      location := none, composition := none, telemetry := some values }

/-- The non-recursive prologue of `addParameter` (lines 176–228):
construct the object, store it (`this.addObject(obj)`), then push its
identifier onto the parent's composition.  `false` models the `TypeError`
escaping from `parent.composition.push` when the parent is `undefined`
(or has no composition array) — note the object itself has already been
stored at that point. -/
def addParameterStore (objects : ObjMap) (p : Parameter)
    (qualifiedName : String) (parent : Option String) (pre : String) :
    ObjMap × Bool :=
  let id := qualifiedNameToId qualifiedName
  let obj := mkParameterObj p qualifiedName pre
  let objects1 := setObj objects id obj
  match parent with
  | none => (objects1, false)
  | some pk =>
    match pushComposition objects1 pk obj.identifier with
    | none => (objects1, false)
    | some objects2 => (objects2, true)

mutual
/-- `addParameter` (`object-provider.js` lines 176–240): the prologue
(`addParameterStore`), then, for an aggregate that stored successfully,
the recursion into its members (lines 230–239). -/
def addParameter (objects : ObjMap) (p : Parameter) (qualifiedName : String)
    (parent : Option String) (pre : String) : ObjMap × Bool :=
  match p with
  | .mk nm qn0 als none =>
    addParameterStore objects (.mk nm qn0 als none) qualifiedName parent pre
  | .mk nm qn0 als (some (.mk engType mems)) =>
    match addParameterStore objects
        (.mk nm qn0 als (some (.mk engType mems))) qualifiedName parent pre with
    | (objects2, false) => (objects2, false)
    | (objects2, true) =>
      if engType == "aggregate" then
        addMembers objects2 mems qualifiedName (qualifiedNameToId qualifiedName)
          (pre ++ nm ++ "_")
      else (objects2, true)
termination_by structural p

/-- The `parameter.type.member.forEach` recursion of `addParameter`
(lines 230–239): each member is added with qualified name
`qualifiedName + "." + member.name` and name prefix `name + "_"`;
an exception aborts the iteration. -/
def addMembers (objects : ObjMap) (members : List Parameter)
    (qualifiedName : String) (parentKey : String) (pre : String) :
    ObjMap × Bool :=
  match members with
  | [] => (objects, true)
  | m :: rest =>
    let r := addParameter objects m (qualifiedName ++ "." ++ m.name)
      (some parentKey) pre
    if r.2 then addMembers r.1 rest qualifiedName parentKey pre
    else (r.1, false)
termination_by structural members
end

/-- `addParameterObject` (`object-provider.js` lines 159–168): skip
suppressed parameters; locate the parent by the qualified name truncated
at the last `/`; hand off to `addParameter`. -/
def addParameterObject (objects : ObjMap) (p : Parameter) : ObjMap × Bool :=
  if isSuppressed p then (objects, true)
  else
    let qn := p.qualifiedName
    let lastSlashPos := lastIndexOfChar qn '/'
    let parentId := qualifiedNameToId (jsSubstringTo qn lastSlashPos)
    match getObj objects parentId with
    | none => addParameter objects p qn none ""
    | some _ => addParameter objects p qn (some parentId) ""

/-! ### Space systems and the full build -/

/-- A `sub` entry of a space-system record. -/
structure SubSys where
  name : String
  qualifiedName : String
deriving Repr, DecidableEq

/-- A space-system record as consumed by `addSpaceSystem`: `name`,
`qualifiedName` and the `sub` list (empty models an absent field). -/
structure SpaceSystem where
  name : String
  qualifiedName : String
  sub : List SubSys
deriving Repr, DecidableEq

/-- Stable insertion of `x` into `l` under a JS comparator: `x` is placed
before the first element `y` with `cmp x y ≤ 0`, so elements comparing
equal keep their original relative order. -/
def insertCmp (cmp : α → α → Int) (x : α) : List α → List α
  | [] => [x]
  | y :: ys => if cmp x y ≤ 0 then x :: y :: ys else y :: insertCmp cmp x ys

/-- JS `Array.prototype.sort(cmp)` as a stable comparison sort (ES2019
requires sort stability; a comparator result of `undefined` coerces to
`NaN`, which the SortCompare step treats as `+0`). -/
def jsSortWith (cmp : α → α → Int) : List α → List α
  | [] => []
  | x :: xs => insertCmp cmp x (jsSortWith cmp xs)

/-- `localeCompare` for the plain ASCII names the catalog uses:
code-point string comparison yielding -1/0/1. -/
def localeCompare (a b : String) : Int :=
  match compare a b with
  | .lt => -1
  | .eq => 0
  | .gt => 1

/-- The comparator passed to the top-level space-system sort
(`object-provider.js` lines 83–85): the arrow body
`{ a.name.localeCompare(b.name) }` has no `return`, so the comparator
evaluates to `undefined`, which JS `sort` treats as comparing equal. -/
def spaceSystemRootCmp (_a _b : SpaceSystem) : Int := 0

/-- The comparator of the `sub` sort (lines 117–119), which does
`return a.name.localeCompare(b.name)`. -/
def subCmp (a b : SubSys) : Int := localeCompare a.name b.name

/-- `addSpaceSystem` (`object-provider.js` lines 112–149): skip the root
path `/`; sort the `sub` list by name and record the children's
identifiers as the composition; store the folder object; if top-level
(the only `/` is the leading one), push its identifier onto the root
object's composition (`rootObject` is the object stored at key
`spacecraft`, always created by the constructor). -/
def addSpaceSystem (objects : ObjMap) (ss : SpaceSystem) : ObjMap :=
  if ss.qualifiedName == "/" then objects
  else
    let subSorted := jsSortWith subCmp ss.sub
    let composition := subSorted.map
      (fun sub => (⟨qualifiedNameToId sub.qualifiedName, "taxonomy"⟩ : Identifier))
    let id := qualifiedNameToId ss.qualifiedName
    let obj : Obj :=
      { identifier := ⟨id, "taxonomy"⟩, name := ss.name, type := "folder",
        location := none, composition := some composition, telemetry := none }
    let objects1 := setObj objects id obj
    if lastIndexOfChar ss.qualifiedName '/' == 0 then
      (pushComposition objects1 "spacecraft" ⟨id, "taxonomy"⟩).getD objects1
    else objects1

/-- `createRootObject` (`object-provider.js` lines 47–59): the root folder
stored at key `spacecraft`. -/
def rootObject (folderName : String) : Obj :=
  { identifier := ⟨"spacecraft", "taxonomy"⟩, name := folderName,
    type := "folder", location := some "ROOT", composition := some [],
    telemetry := none }

/-- The `parameters.parameters.forEach(addParameterObject)` loop of the
build (lines 89–93): an exception escaping `addParameterObject` aborts
the iteration. -/
def addParameterObjects (objects : ObjMap) : List Parameter → ObjMap × Bool
  | [] => (objects, true)
  | p :: rest =>
    let r := addParameterObject objects p
    if r.2 then addParameterObjects r.1 rest else (r.1, false)

/-- The pure core of `fetchTelemetryDictionary` (lines 78–97) once both
paginated fetches have delivered: sort the space systems with the broken
comparator, add each space system, then add each parameter.  The flag is
`false` when a `TypeError` escaped the parameter loop (rejecting the
build promise). -/
def buildDictionary (folderName : String) (spaceSystems : List SpaceSystem)
    (parameters : List Parameter) : ObjMap × Bool :=
  let objects0 : ObjMap := [("spacecraft", rootObject folderName)]
  let ssSorted := jsSortWith spaceSystemRootCmp spaceSystems
  let objects1 := ssSorted.foldl addSpaceSystem objects0
  addParameterObjects objects1 parameters

/-! ### The lazy memoized asynchronous build

State machine for the promise plumbing of `getTelemetryDictionary` /
`fetchTelemetryDictionary` (`object-provider.js` lines 61–101): the
`dictionary` cache, the `dictionaryPromise` in-flight marker, a count of
upstream fetch sequences started, and a record of settled build promises
(by a promise identifier).  The built dictionary value itself is
abstracted by a type parameter `δ`. -/

/-- Outcome of one build promise: resolution with a dictionary, or
rejection (a metadata page fetch failed). -/
inductive BuildOutcome (δ : Type) where
  | success (d : δ)
  | failure
deriving Repr, DecidableEq

/-- What one call of `getTelemetryDictionary` hands its caller: the cached
dictionary (`Promise.resolve(this.dictionary)`), or the promise of the
build it awaits, named by the promise identifier. -/
inductive LookupResult (δ : Type) where
  | cached (d : δ)
  | awaiting (promiseId : Nat)
deriving Repr, DecidableEq

/-- The provider's asynchronous-build state: `dictionary` and
`dictionaryPromise` are the instance fields of those names;
`fetchCount` counts the upstream fetch sequences started (one per
promise created); `settled` records outcomes of settled promises. -/
structure AsyncWorld (δ : Type) where
  dictionary : Option δ
  dictionaryPromise : Option Nat
  fetchCount : Nat
  settled : List (Nat × BuildOutcome δ)
deriving Repr, DecidableEq

/-- The provider right after construction: nothing cached, no build in
flight. -/
def initWorld : AsyncWorld δ :=
  { dictionary := none, dictionaryPromise := none, fetchCount := 0,
    settled := [] }

/-- `getTelemetryDictionary` (lines 67–73) together with the in-flight
guard of `fetchTelemetryDictionary` (lines 76 and 100): a cached
dictionary is returned at once; otherwise the caller awaits the existing
`dictionaryPromise` if set, else a new upstream fetch sequence starts and
its promise is stored. -/
def getTelemetryDictionary (w : AsyncWorld δ) :
    AsyncWorld δ × LookupResult δ :=
  match w.dictionary with
  | some d => (w, .cached d)
  | none =>
    match w.dictionaryPromise with
    | some pid => (w, .awaiting pid)
    | none =>
      let pid := w.fetchCount + 1
      ({ w with fetchCount := pid, dictionaryPromise := some pid },
       .awaiting pid)

/-- The in-flight build settles.  On success the build's continuation
(line 94) clears `dictionaryPromise` and the `.then` of
`getTelemetryDictionary` (line 72) stores the dictionary; on rejection no
continuation runs, so both instance fields keep their values and only the
promise itself is now settled (rejected). -/
def settleBuild (w : AsyncWorld δ) (outcome : BuildOutcome δ) :
    AsyncWorld δ :=
  match w.dictionaryPromise with
  | none => w
  | some pid =>
    match outcome with
    | .success d =>
      { w with settled := (pid, .success d) :: w.settled,
               dictionaryPromise := none, dictionary := some d }
    | .failure =>
      { w with settled := (pid, .failure) :: w.settled }

/-- What a caller awaiting promise `pid` observes once that promise has
settled. -/
def observeSettled (w : AsyncWorld δ) (pid : Nat) :
    Option (BuildOutcome δ) :=
  (w.settled.find? (fun p => p.1 == pid)).map Prod.snd

/-- `n` catalog lookups in sequence before anything else settles,
collecting each caller's result. -/
def lookupN (w : AsyncWorld δ) : Nat → AsyncWorld δ × List (LookupResult δ)
  | 0 => (w, [])
  | n + 1 =>
    let r := getTelemetryDictionary w
    let rest := lookupN r.1 n
    (rest.1, r.2 :: rest.2)

end ObjectProvider

namespace Realtime

/-- The reconnect backoff schedule
(`realtime-telemetry-provider.js` line 31). -/
def FALLBACK_AND_WAIT_MS : List Nat := [1000, 5000, 5000, 10000, 10000, 30000]

/-- An outbound wire command (`tlmSubscribe` / `tlmUnsubscribe`,
lines 158–167); the JSON request string is injective in this data, so the
command is modelled structurally, carrying the qualified name. -/
inductive Request where
  | subscribe (name : String)
  | unsubscribe (name : String)
deriving Repr, DecidableEq

/-- The engine's instance fields (constructor, lines 33–44).  Callbacks
are opaque, modelled as `Nat` tags; `listener` is the id→callback JS
object as an association list; `requests` is the pending command queue;
`reconnectTimeout` is whether a reconnect timer is pending. -/
structure EngineState where
  seqNo : Nat
  connected : Bool
  listener : List (String × Nat)
  requests : List Request
  currentWaitIndex : Nat
  reconnectTimeout : Bool
deriving Repr, DecidableEq

/-- The freshly constructed engine. -/
def initialState : EngineState :=
  { seqNo := 0, connected := false, listener := [], requests := [],
    currentWaitIndex := 0, reconnectTimeout := false }

/-- JS `this.listener[id] = callback`. -/
def setListener (l : List (String × Nat)) (id : String) (cb : Nat) :
    List (String × Nat) :=
  match l with
  | [] => [(id, cb)]
  | (k, c) :: rest =>
    if k == id then (id, cb) :: rest else (k, c) :: setListener rest id cb

/-- JS `this.listener[id]` lookup. -/
def getListener (l : List (String × Nat)) (id : String) : Option Nat :=
  match l with
  | [] => none
  | (k, c) :: rest => if k == id then some c else getListener rest id

/-- JS `delete this.listener[id]`. -/
def delListener (l : List (String × Nat)) (id : String) :
    List (String × Nat) :=
  l.filter (fun p => !(p.1 == id))

/-- `sendRequest` (lines 208–211): wrap the request in an envelope
`[1, 1, ++seqNo, request]` and write it; the emitted payload is the
(sequence number, request) pair. -/
def sendRequest (s : EngineState) (r : Request) :
    EngineState × (Nat × Request) :=
  ({ s with seqNo := s.seqNo + 1 }, (s.seqNo + 1, r))

/-- `sendOrQueueRequest` (lines 169–185) with the write succeeding when
connected (transport write failures are outside the claims modelled
here): send when connected, else push onto the pending queue. -/
def sendOrQueueRequest (s : EngineState) (r : Request) :
    EngineState × List (Nat × Request) :=
  if s.connected then
    let sr := sendRequest s r
    (sr.1, [sr.2])
  else ({ s with requests := s.requests ++ [r] }, [])

/-- `sendOrQueueRequest` over a list of commands, collecting emissions. -/
def sendOrQueueAll (s : EngineState) : List Request →
    EngineState × List (Nat × Request)
  | [] => (s, [])
  | r :: rest =>
    let r1 := sendOrQueueRequest s r
    let r2 := sendOrQueueAll r1.1 rest
    (r2.1, r1.2 ++ r2.2)

/-- `resubscribeToAll` (lines 78–83): a subscribe command for every
identifier currently in the callback mapping, in mapping order. -/
def resubscribeToAll (s : EngineState) : EngineState × List (Nat × Request) :=
  sendOrQueueAll s
    (s.listener.map (fun p => .subscribe (ObjectProvider.idToQualifiedName p.1)))

/-- `sendRequest` over a list of commands. -/
def sendAll (s : EngineState) : List Request →
    EngineState × List (Nat × Request)
  | [] => (s, [])
  | r :: rest =>
    let r1 := sendRequest s r
    let r2 := sendAll r1.1 rest
    (r2.1, r1.2 :: r2.2)

/-- `flushQueue` (lines 187–206) with every write succeeding: each queued
command is sent in FIFO order and removed from the queue. -/
def flushQueue (s : EngineState) : EngineState × List (Nat × Request) :=
  let r := sendAll s s.requests
  ({ r.1 with requests := [] }, r.2)

/-- `connect` (lines 85–92): a no-op when connected; otherwise reset
`seqNo` to 0 and open a fresh socket (still disconnected until
`onopen`). -/
def connect (s : EngineState) : EngineState :=
  if s.connected then s
  else { s with seqNo := 0, connected := false }

/-- `reconnect` (lines 143–156): a no-op while a timer is pending;
otherwise schedule a wait of `FALLBACK_AND_WAIT_MS[currentWaitIndex]`
(returned as the scheduled wait) and advance the index, holding at the
last entry. -/
def reconnect (s : EngineState) : EngineState × List Nat :=
  if s.reconnectTimeout then (s, [])
  else
    let w := FALLBACK_AND_WAIT_MS.getD s.currentWaitIndex 0
    let s1 := { s with reconnectTimeout := true }
    let s2 :=
      if s1.currentWaitIndex < FALLBACK_AND_WAIT_MS.length - 1 then
        { s1 with currentWaitIndex := s1.currentWaitIndex + 1 }
      else s1
    (s2, [w])

/-- `socket.onopen` (lines 94–103): cancel any pending timer, mark
connected, reset the backoff index, resubscribe every listed identifier,
then drain the pending queue. -/
def onopen (s : EngineState) : EngineState × List (Nat × Request) :=
  let s0 := { s with reconnectTimeout := false, connected := true,
                     currentWaitIndex := 0 }
  let r1 := resubscribeToAll s0
  let r2 := flushQueue r1.1
  (r2.1, r1.2 ++ r2.2)

/-- `subscribe` (lines 59–76): record (or replace) the callback for the
identifier, and when connected immediately send a subscribe command for
its qualified name.  The returned handle is determined by `(name, id)`,
both derived from `id`, so it is modelled by the identifier itself (see
`unsubscribeHandle`). -/
def subscribe (s : EngineState) (id : String) (cb : Nat) :
    EngineState × List (Nat × Request) :=
  let s0 := { s with listener := setListener s.listener id cb }
  if s0.connected then
    sendOrQueueRequest s0 (.subscribe (ObjectProvider.idToQualifiedName id))
  else (s0, [])

/-- Invoking the unsubscribe handle returned by `subscribeToTelemetry`
(lines 72–75): send or queue an unsubscribe command for the captured
qualified name, then delete whatever callback is currently registered
under the captured identifier. -/
def unsubscribeHandle (s : EngineState) (id : String) :
    EngineState × List (Nat × Request) :=
  let r := sendOrQueueRequest s (.unsubscribe (ObjectProvider.idToQualifiedName id))
  ({ r.1 with listener := delListener r.1.listener id }, r.2)

/-- The externally visible events driving the engine. `timerFired` is the
reconnect timer's callback (line 148–151): `connect()` then clear the
pending-timer marker.  `errored` covers `socket.onerror` and
`socket.onclose` (lines 129–140), which both mark disconnected and call
`reconnect`. -/
inductive Ev where
  | connectCall
  | timerFired
  | opened
  | errored
  | subscribeEv (id : String) (cb : Nat)
  | unsubEv (id : String)
deriving Repr, DecidableEq

/-- Observable output of a step: wire payloads sent (sequence number and
request), and reconnect waits scheduled. -/
structure Out where
  sent : List (Nat × Request)
  waits : List Nat
deriving Repr, DecidableEq

/-- One event step of the engine. -/
def step (s : EngineState) : Ev → EngineState × Out
  | .connectCall => (connect s, ⟨[], []⟩)
  | .timerFired =>
    let s1 := connect s
    ({ s1 with reconnectTimeout := false }, ⟨[], []⟩)
  | .opened =>
    let r := onopen s
    (r.1, ⟨r.2, []⟩)
  | .errored =>
    let r := reconnect { s with connected := false }
    (r.1, ⟨[], r.2⟩)
  | .subscribeEv id cb =>
    let r := subscribe s id cb
    (r.1, ⟨r.2, []⟩)
  | .unsubEv id =>
    let r := unsubscribeHandle s id
    (r.1, ⟨r.2, []⟩)

/-- Run a list of events, concatenating outputs in temporal order. -/
def run (s : EngineState) : List Ev → EngineState × Out
  | [] => (s, ⟨[], []⟩)
  | e :: es =>
    let r1 := step s e
    let r2 := run r1.1 es
    (r2.1, ⟨r1.2.sent ++ r2.2.sent, r1.2.waits ++ r2.2.waits⟩)

/-- The event trace of `n` consecutive connection failures after an
initial `connect()`: each failure fires `onerror` (scheduling a wait) and
the scheduled timer then attempts the next connect. -/
def failTrace : Nat → List Ev
  | 0 => [.connectCall]
  | n + 1 => failTrace n ++ [.errored, .timerFired]

/-! ### Inbound frame handling -/

/-- An engineering value as a tagged union.  Modelled from the spec:
`getValue` of `utils.js` is not under `src/`; spec §4.3 requires handling
at least numeric, string and array-typed values by picking the populated
field by type tag. -/
inductive EngValue where
  | intValue (v : Int)
  | stringValue (v : String)
  | arrayValue (vs : List EngValue)

/-- Modelled from the spec: `getValue` extracts the single populated
value payload by type tag (spec §4.3, §9). -/
def getValue : EngValue → EngValue := fun v => v

/-- One parameter sample of an inbound `PARAMETER` frame:
`parameter.id.name`, `parameter.generationTimeUTC`, the engineering
value, and an optional limit/alarm annotation. -/
structure Sample where
  idName : String
  generationTimeUTC : String
  engValue : EngValue
  monitoringResult : Option String

/-- A delivered telemetry point (`socket.onmessage`, lines 115–120),
with the limit annotation attached when present (`addLimitInformation`,
modelled from the spec: attach any limit/alarm annotation present on the
sample). -/
structure Point where
  id : String
  timestamp : String
  value : EngValue
  limit : Option String

/-- One element of a decoded inbound frame (a JSON array): the envelope
numbers, or the index-3 payload object carrying `dt` and the sample
list.  Reading `.dt` off a number yields `undefined`, i.e. no tag. -/
inductive FrameItem where
  | numItem (n : Nat)
  | payload (dt : String) (parameter : List Sample)

/-- The point built for one sample (lines 115–120). -/
def mkPoint (sample : Sample) : Point :=
  { id := ObjectProvider.qualifiedNameToId sample.idName,
    timestamp := sample.generationTimeUTC,
    value := getValue sample.engValue,
    limit := sample.monitoringResult }

/-- `socket.onmessage` (lines 105–127): frames shorter than 4 elements
are ignored; only frames whose fourth element is tagged `PARAMETER` are
processed; each sample is delivered to the callback registered for its
derived identifier, if any.  The result is the list of callback
invocations (callback tag, point). -/
def onmessage (listener : List (String × Nat)) (data : List FrameItem) :
    List (Nat × Point) :=
  if data.length < 4 then []
  else
    match data.getD 3 (.numItem 0) with
    | .numItem _ => []
    | .payload dt samples =>
      if dt == "PARAMETER" then
        samples.filterMap (fun smp =>
          let point := mkPoint smp
          (getListener listener point.id).map (fun cb => (cb, point)))
      else []

end Realtime

/-! ## Theorems -/

namespace ObjectProvider

/-- Unfolding `addParameter` when the parent lookup produced `undefined`:
the object is stored first (`this.addObject(obj)`), then
`parent.composition.push` throws. -/
theorem addParameter_none_parent (objects : ObjMap) (p : Parameter)
    (qn pre : String) :
    addParameter objects p qn none pre
      = (setObj objects (qualifiedNameToId qn) (mkParameterObj p qn pre),
         false) := by
  cases p with
  | mk nm qn0 als ty =>
    cases ty with
    | none => simp [addParameter, addParameterStore]
    | some t =>
      cases t with
      | mk e mems => simp [addParameter, addParameterStore]

/-- **C1** (amended): for every non-suppressed parameter whose parent
folder cannot be found in the identifier-to-node mapping, the parameter
is NOT silently dropped: its node IS added to the mapping
(`addObject` runs before the parent access) and the build then fails
with a `TypeError` from `parent.composition.push` (modelled by the
`false` flag). -/
theorem c1_missing_parent_adds_node_then_throws (objects : ObjMap)
    (p : Parameter) (hsup : isSuppressed p = false)
    (hmiss : getObj objects (qualifiedNameToId (jsSubstringTo p.qualifiedName
        (lastIndexOfChar p.qualifiedName '/'))) = none) :
    addParameterObject objects p
      = (setObj objects (qualifiedNameToId p.qualifiedName)
          (mkParameterObj p p.qualifiedName ""), false) := by
  unfold addParameterObject
  simp [hsup, hmiss, addParameter_none_parent]

/-- **C1** witness: the amended theorem applied to a concrete
float parameter `/Miss/P` over an empty mapping. -/
theorem c1_missing_parent_witness :
    isSuppressed (Parameter.mk "P" "/Miss/P" [] (some (.mk "float" [])))
        = false ∧
    getObj [] (qualifiedNameToId (jsSubstringTo "/Miss/P"
        (lastIndexOfChar "/Miss/P" '/'))) = none ∧
    addParameterObject [] (Parameter.mk "P" "/Miss/P" []
        (some (.mk "float" [])))
      = (setObj [] (qualifiedNameToId "/Miss/P")
          (mkParameterObj (Parameter.mk "P" "/Miss/P" []
            (some (.mk "float" []))) "/Miss/P" ""), false) :=
  ⟨by decide, by decide,
    c1_missing_parent_adds_node_then_throws []
      (Parameter.mk "P" "/Miss/P" [] (some (.mk "float" [])))
      (by decide) (by decide)⟩

/-- **C1** counterexample: in a build whose space systems are `[/Sat]`
and whose single parameter `/Miss/P` has no resolvable parent, the claim
"the build completes without error, and no node for that parameter is
added to the mapping" is false at this input: the build errors
(flag `false`) and the node IS in the mapping. -/
theorem c1_counterexample :
    ¬ ((buildDictionary "Spacecraft" [⟨"Sat", "/Sat", []⟩]
          [Parameter.mk "P" "/Miss/P" [] (some (.mk "float" []))]).2 = true ∧
       getObj (buildDictionary "Spacecraft" [⟨"Sat", "/Sat", []⟩]
          [Parameter.mk "P" "/Miss/P" [] (some (.mk "float" []))]).1
          "~Miss~P" = none) := by
  decide

/-- **C4**: the top-level space-system sort comparator returns
`undefined` (its arrow body has no `return`), so JS `sort` treats every
pair as equal and the stable sort leaves the original order: top-level
folders named `["b","a","c"]` end up in the root's composition in the
order `["b","a","c"]`, not the claimed `["a","b","c"]`. -/
theorem c4_root_children_not_sorted :
    (getObj (buildDictionary "Spacecraft"
        [⟨"b", "/b", []⟩, ⟨"a", "/a", []⟩, ⟨"c", "/c", []⟩] []).1
        "spacecraft").map
        (fun o => (o.composition.getD []).map Identifier.key)
      = some ["~b", "~a", "~c"] ∧
    (["~b", "~a", "~c"] : List String) ≠ ["~a", "~b", "~c"] := by
  decide

/-- **C5** (amended): for every non-aggregate parameter, numeric leaves
carry a `range` display hint on the value field, string leaves carry an
empty hints object there, and image leaves carry an `image` hint (NOT a
`range` hint) plus value format `image`.  All share the ISO-formatted
`utc` timestamp field. -/
theorem c5_value_field_hints (p : Parameter) (qn pre : String)
    (hagg : isAggregateParam p = false) :
    (getParameterType p = TELEMETRY_OBJECT_TYPE →
       (mkParameterObj p qn pre).telemetry
         = some [ { key := "value", name := "Value", hints := [("range", 1)],
                    format := none, source := none },
                  { key := "utc", name := "Timestamp",
                    hints := [("domain", 1)], format := some "iso",
                    source := some "timestamp" } ]) ∧
    (getParameterType p = STRING_OBJECT_TYPE →
       (mkParameterObj p qn pre).telemetry
         = some [ { key := "value", name := "Value", hints := [],
                    format := none, source := none },
                  { key := "utc", name := "Timestamp",
                    hints := [("domain", 1)], format := some "iso",
                    source := some "timestamp" } ]) ∧
    (getParameterType p = IMAGE_OBJECT_TYPE →
       (mkParameterObj p qn pre).telemetry
         = some [ { key := "value", name := "Value", hints := [("image", 1)],
                    format := some "image", source := none },
                  { key := "utc", name := "Timestamp",
                    hints := [("domain", 1)], format := some "iso",
                    source := some "timestamp" } ]) := by
  refine ⟨fun h => ?_, fun h => ?_, fun h => ?_⟩ <;>
    simp [mkParameterObj, hagg, h, defaultValues, TELEMETRY_OBJECT_TYPE,
      STRING_OBJECT_TYPE, IMAGE_OBJECT_TYPE]

/-- **C5** witness: the amended theorem applied to a concrete float
parameter (numeric case). -/
theorem c5_value_field_hints_witness :
    (mkParameterObj (Parameter.mk "T" "/Sat/T" []
        (some (.mk "float" []))) "/Sat/T" "").telemetry
      = some [ { key := "value", name := "Value", hints := [("range", 1)],
                 format := none, source := none },
               { key := "utc", name := "Timestamp",
                 hints := [("domain", 1)], format := some "iso",
                 source := some "timestamp" } ] :=
  (c5_value_field_hints (Parameter.mk "T" "/Sat/T" []
      (some (.mk "float" []))) "/Sat/T" "" (by decide)).1 (by decide)

/-- **C5** counterexample: a concrete image-classified leaf does NOT
carry a `range` display hint on its value field — its hints object is
`{image: 1}` — refuting "numeric and image leaves carry a range display
hint on their value field". -/
theorem c5_counterexample :
    getParameterType (Parameter.mk "Cam" "/Sat/Cam"
        [⟨"OpenMCT:type", IMAGE_OBJECT_TYPE⟩] (some (.mk "binary" [])))
      = IMAGE_OBJECT_TYPE ∧
    (mkParameterObj (Parameter.mk "Cam" "/Sat/Cam"
        [⟨"OpenMCT:type", IMAGE_OBJECT_TYPE⟩] (some (.mk "binary" [])))
        "/Sat/Cam" "").telemetry.map (fun vs => vs.map ValueField.hints)
      = some [[("image", 1)], [("domain", 1)]] ∧
    (("range", 1) : String × Nat) ∉ ([("image", 1)] : List (String × Nat)) := by
  decide

end ObjectProvider

namespace ObjectProvider

/-- While a build is in flight (a pending promise, nothing cached), a
catalog lookup changes nothing and hands the caller that promise. -/
theorem getTelemetryDictionary_pending {δ : Type} (w : AsyncWorld δ)
    (pid : Nat) (h1 : w.dictionary = none)
    (h2 : w.dictionaryPromise = some pid) :
    getTelemetryDictionary w = (w, .awaiting pid) := by
  simp [getTelemetryDictionary, h1, h2]

/-- Any number of lookups against an in-flight build all await the same
promise and leave the world unchanged. -/
theorem lookupN_pending {δ : Type} (w : AsyncWorld δ) (pid : Nat)
    (h1 : w.dictionary = none) (h2 : w.dictionaryPromise = some pid) :
    ∀ n, lookupN w n = (w, List.replicate n (.awaiting pid))
  | 0 => by simp [lookupN]
  | n + 1 => by
    simp [lookupN, getTelemetryDictionary_pending w pid h1 h2,
      lookupN_pending w pid h1 h2 n, List.replicate_succ]

/-- **C8**: `n ≥ 1` catalog lookups issued before the first build
resolves trigger exactly one upstream fetch sequence (`fetchCount = 1`)
and all await the same promise (id 1); once that build succeeds with
dictionary `d`, every awaiting caller observes `d`, and subsequent
lookups return the cached `d` without any further fetch. -/
theorem c8_single_shared_build {δ : Type} (n : Nat) (hn : 1 ≤ n) (d : δ) :
    (lookupN (initWorld : AsyncWorld δ) n).1.fetchCount = 1 ∧
    (lookupN (initWorld : AsyncWorld δ) n).2
      = List.replicate n (.awaiting 1) ∧
    observeSettled
        (settleBuild (lookupN (initWorld : AsyncWorld δ) n).1 (.success d)) 1
      = some (.success d) ∧
    getTelemetryDictionary
        (settleBuild (lookupN (initWorld : AsyncWorld δ) n).1 (.success d))
      = (settleBuild (lookupN (initWorld : AsyncWorld δ) n).1 (.success d),
         .cached d) ∧
    (settleBuild (lookupN (initWorld : AsyncWorld δ) n).1
        (.success d)).fetchCount = 1 := by
  obtain ⟨m, rfl⟩ : ∃ m, n = m + 1 := ⟨n - 1, by omega⟩
  have h1 : lookupN (initWorld : AsyncWorld δ) (m + 1)
      = ({ dictionary := none, dictionaryPromise := some 1, fetchCount := 1,
           settled := [] },
         List.replicate (m + 1) (.awaiting 1)) := by
    simp [lookupN, getTelemetryDictionary, initWorld,
      lookupN_pending
        ({ dictionary := none, dictionaryPromise := some 1, fetchCount := 1,
           settled := [] } : AsyncWorld δ) 1 rfl rfl m,
      List.replicate_succ]
  rw [h1]
  refine ⟨rfl, rfl, rfl, ?_, rfl⟩
  simp [settleBuild, getTelemetryDictionary]

/-- **C8** witness: the theorem at `δ := Nat`, three lookups, dictionary
value 42. -/
theorem c8_single_shared_build_witness :
    (lookupN (initWorld : AsyncWorld Nat) 3).1.fetchCount = 1 ∧
    (lookupN (initWorld : AsyncWorld Nat) 3).2
      = List.replicate 3 (.awaiting 1) ∧
    observeSettled
        (settleBuild (lookupN (initWorld : AsyncWorld Nat) 3).1
          (.success 42)) 1
      = some (.success 42) ∧
    getTelemetryDictionary
        (settleBuild (lookupN (initWorld : AsyncWorld Nat) 3).1
          (.success 42))
      = (settleBuild (lookupN (initWorld : AsyncWorld Nat) 3).1
          (.success 42), .cached 42) ∧
    (settleBuild (lookupN (initWorld : AsyncWorld Nat) 3).1
        (.success 42)).fetchCount = 1 :=
  c8_single_shared_build 3 (by decide) 42

/-- **C3** (amended): when the in-flight build fails, the failure is
propagated to every caller awaiting it (they all hold promise 1, which
settles rejected) and no dictionary is cached; but a subsequent catalog
lookup does NOT start a fresh build: `dictionaryPromise` is only cleared
in the success continuation, so the lookup returns the same rejected
promise and no new upstream fetch sequence is issued. -/
theorem c3_failed_build_stays_cached {δ : Type} (n : Nat) (hn : 1 ≤ n) :
    (lookupN (initWorld : AsyncWorld δ) n).2
      = List.replicate n (.awaiting 1) ∧
    observeSettled
        (settleBuild (lookupN (initWorld : AsyncWorld δ) n).1 .failure) 1
      = some .failure ∧
    (settleBuild (lookupN (initWorld : AsyncWorld δ) n).1
        .failure).dictionary = none ∧
    getTelemetryDictionary
        (settleBuild (lookupN (initWorld : AsyncWorld δ) n).1 .failure)
      = (settleBuild (lookupN (initWorld : AsyncWorld δ) n).1 .failure,
         .awaiting 1) ∧
    (settleBuild (lookupN (initWorld : AsyncWorld δ) n).1
        .failure).fetchCount = 1 := by
  obtain ⟨m, rfl⟩ : ∃ m, n = m + 1 := ⟨n - 1, by omega⟩
  have h1 : lookupN (initWorld : AsyncWorld δ) (m + 1)
      = ({ dictionary := none, dictionaryPromise := some 1, fetchCount := 1,
           settled := [] },
         List.replicate (m + 1) (.awaiting 1)) := by
    simp [lookupN, getTelemetryDictionary, initWorld,
      lookupN_pending
        ({ dictionary := none, dictionaryPromise := some 1, fetchCount := 1,
           settled := [] } : AsyncWorld δ) 1 rfl rfl m,
      List.replicate_succ]
  rw [h1]
  refine ⟨rfl, rfl, rfl, ?_, rfl⟩
  simp [settleBuild, getTelemetryDictionary, observeSettled]

/-- **C3** witness: the amended theorem at `δ := Nat`, two awaiting
callers. -/
theorem c3_failed_build_stays_cached_witness :
    (lookupN (initWorld : AsyncWorld Nat) 2).2
      = List.replicate 2 (.awaiting 1) ∧
    observeSettled
        (settleBuild (lookupN (initWorld : AsyncWorld Nat) 2).1 .failure) 1
      = some .failure ∧
    (settleBuild (lookupN (initWorld : AsyncWorld Nat) 2).1
        .failure).dictionary = none ∧
    getTelemetryDictionary
        (settleBuild (lookupN (initWorld : AsyncWorld Nat) 2).1 .failure)
      = (settleBuild (lookupN (initWorld : AsyncWorld Nat) 2).1 .failure,
         .awaiting 1) ∧
    (settleBuild (lookupN (initWorld : AsyncWorld Nat) 2).1
        .failure).fetchCount = 1 :=
  c3_failed_build_stays_cached 2 (by decide)

/-- **C3** counterexample: after one lookup and a failed build, the
subsequent lookup returns the SAME rejected promise (id 1, settled as
failure) and issues no new upstream fetch (`fetchCount` stays 1, is not
2), refuting "a subsequent catalog lookup starts a fresh build from
scratch (issuing a new upstream fetch sequence rather than returning the
earlier failure)". -/
theorem c3_counterexample :
    observeSettled
        (settleBuild (getTelemetryDictionary
          (initWorld : AsyncWorld Nat)).1 .failure) 1 = some .failure ∧
    getTelemetryDictionary
        (settleBuild (getTelemetryDictionary
          (initWorld : AsyncWorld Nat)).1 .failure)
      = (settleBuild (getTelemetryDictionary
          (initWorld : AsyncWorld Nat)).1 .failure, .awaiting 1) ∧
    ¬ ((getTelemetryDictionary (settleBuild (getTelemetryDictionary
          (initWorld : AsyncWorld Nat)).1 .failure)).1.fetchCount = 2) := by
  decide

end ObjectProvider

namespace Realtime

/-- Sending a list of requests emits consecutive sequence numbers
starting right after the current `seqNo`, paired with the requests in
order, and advances `seqNo` by the number of sends. -/
theorem sendAll_spec (rs : List Request) (s : EngineState) :
    sendAll s rs
      = ({ s with seqNo := s.seqNo + rs.length },
         (List.range' (s.seqNo + 1) rs.length).zip rs) := by
  induction rs generalizing s with
  | nil => simp [sendAll]
  | cons r rest ih =>
    simp [sendAll, sendRequest, ih, List.range'_succ]
    omega

/-- `sendOrQueueAll` on a connected engine behaves as `sendAll`. -/
theorem sendOrQueueAll_connected (rs : List Request) (s : EngineState)
    (h : s.connected = true) :
    sendOrQueueAll s rs
      = ({ s with seqNo := s.seqNo + rs.length },
         (List.range' (s.seqNo + 1) rs.length).zip rs) := by
  induction rs generalizing s with
  | nil => simp [sendOrQueueAll]
  | cons r rest ih =>
    simp [sendOrQueueAll, sendOrQueueRequest, h, sendRequest, ih,
      List.range'_succ]
    omega

/-- `onopen` in closed form: resubscribes (in listener order) then
drains the queue (in FIFO order), numbering all sends consecutively. -/
theorem onopen_spec (s : EngineState) :
    onopen s
      = ({ s with connected := true,
                  reconnectTimeout := false,
                  currentWaitIndex := 0,
                  requests := [],
                  seqNo := s.seqNo + s.listener.length + s.requests.length },
         (List.range' (s.seqNo + 1) s.listener.length).zip
             (s.listener.map (fun p =>
               Request.subscribe (ObjectProvider.idToQualifiedName p.1)))
           ++ (List.range' (s.seqNo + s.listener.length + 1)
               s.requests.length).zip s.requests) := by
  simp only [onopen, resubscribeToAll]
  rw [sendOrQueueAll_connected _ _ rfl]
  simp [flushQueue, sendAll_spec]

/-- **C7**: on every (re)connection, a subscribe command is sent for each
identifier currently in the callback mapping, in mapping order, before
any command from the pending queue, and the queued commands are then
drained in FIFO order; in particular with active subscriptions for
`["a","b"]` and one queued command, exactly the two subscribe commands
for `a` and `b` are sent first, then the queued command. -/
theorem c7_resubscribe_before_queue (s : EngineState) :
    (step s Ev.opened).2.sent.map Prod.snd
      = s.listener.map (fun p =>
          Request.subscribe (ObjectProvider.idToQualifiedName p.1))
        ++ s.requests ∧
    (step ({ seqNo := 0, connected := false,
             listener := [("a", 1), ("b", 2)],
             requests := [Request.unsubscribe "q"], currentWaitIndex := 0,
             reconnectTimeout := false } : EngineState) Ev.opened).2.sent.map
        Prod.snd
      = [Request.subscribe "a", Request.subscribe "b",
         Request.unsubscribe "q"] := by
  constructor
  · show (onopen s).2.map Prod.snd = _
    rw [onopen_spec]
    rw [List.map_append]
    rw [List.map_snd_zip _ _ (by simp), List.map_snd_zip _ _ (by simp)]
  · decide

end Realtime

namespace Realtime

/-- Any single event other than a `connect()` call (direct or via the
reconnect timer) emits consecutively numbered payloads continuing from
the current `seqNo`, and advances `seqNo` by the number of payloads. -/
theorem step_sent_seqs (s : EngineState) (e : Ev)
    (h1 : e ≠ Ev.connectCall) (h2 : e ≠ Ev.timerFired) :
    ((step s e).2.sent.map Prod.fst
      = List.range' (s.seqNo + 1) (step s e).2.sent.length) ∧
    (step s e).1.seqNo = s.seqNo + (step s e).2.sent.length := by
  cases e with
  | connectCall => exact absurd rfl h1
  | timerFired => exact absurd rfl h2
  | opened =>
    simp only [step, onopen_spec]
    constructor
    · rw [List.map_append,
        List.map_fst_zip _ _ (by simp), List.map_fst_zip _ _ (by simp)]
      simp only [List.length_append, List.length_zip, List.length_range',
        List.length_map, Nat.min_self]
      have : s.seqNo + s.listener.length + 1
          = s.seqNo + 1 + s.listener.length := by omega
      rw [this, List.range'_append_1]
      congr 1
      omega
    · simp only [List.length_append, List.length_zip, List.length_range',
        List.length_map, Nat.min_self]
      omega
  | errored =>
    constructor
    · simp [step]
    · simp only [step, reconnect]
      split
      · simp
      · split <;> simp
  | subscribeEv id cb =>
    simp only [step, subscribe]
    by_cases hc : s.connected <;>
      simp [hc, sendOrQueueRequest, sendRequest, List.range'_succ]
  | unsubEv id =>
    simp only [step, unsubscribeHandle]
    by_cases hc : s.connected <;>
      simp [hc, sendOrQueueRequest, sendRequest, List.range'_succ]

/-- Over any event list free of `connect()` calls, the emitted sequence
numbers are exactly the consecutive range continuing from the current
`seqNo`. -/
theorem run_sent_seqs (evs : List Ev) (s : EngineState)
    (h : ∀ e ∈ evs, e ≠ Ev.connectCall ∧ e ≠ Ev.timerFired) :
    ((run s evs).2.sent.map Prod.fst
      = List.range' (s.seqNo + 1) (run s evs).2.sent.length) ∧
    (run s evs).1.seqNo = s.seqNo + (run s evs).2.sent.length := by
  induction evs generalizing s with
  | nil => simp [run]
  | cons e rest ih =>
    obtain ⟨he1, he2⟩ := h e (by simp)
    obtain ⟨hs1, hs2⟩ := step_sent_seqs s e he1 he2
    obtain ⟨hr1, hr2⟩ := ih (step s e).1 (fun x hx => h x (by simp [hx]))
    simp only [run, List.map_append, List.length_append]
    constructor
    · rw [hs1, hr1, hs2]
      have h3 : s.seqNo + (step s e).2.sent.length + 1
          = s.seqNo + 1 + (step s e).2.sent.length := by omega
      rw [h3, List.range'_append_1]
      congr 1
      omega
    · rw [hr2, hs2]
      omega

/-- **C2** (amended): within a single connection generation — any event
sequence containing no `connect()` call (neither direct nor via the
reconnect timer) — outbound envelope sequence numbers are the
consecutive range starting right after the current counter (so they start
at 1 after `connect()` resets the counter to 0, increment by 1 per send,
and are strictly increasing); `connect()` resets the counter, so the
monotonicity does NOT extend across reconnects. -/
theorem c2_seq_monotonic_within_generation (s : EngineState)
    (evs : List Ev)
    (h : ∀ e ∈ evs, e ≠ Ev.connectCall ∧ e ≠ Ev.timerFired) :
    ((run s evs).2.sent.map Prod.fst
      = List.range' (s.seqNo + 1) (run s evs).2.sent.length) ∧
    List.Pairwise (· < ·) ((run s evs).2.sent.map Prod.fst) := by
  obtain ⟨h1, -⟩ := run_sent_seqs evs s h
  exact ⟨h1, h1 ▸ List.pairwise_lt_range' _ _⟩

/-- **C2** witness: the amended theorem on a concrete connected engine
sending two subscribe commands. -/
theorem c2_seq_monotonic_witness :
    ((run ({ seqNo := 0, connected := true, listener := [], requests := [],
             currentWaitIndex := 0, reconnectTimeout := false } : EngineState)
        [Ev.subscribeEv "a" 1, Ev.subscribeEv "b" 2]).2.sent.map Prod.fst
      = List.range' 1
          ((run ({ seqNo := 0, connected := true, listener := [],
                   requests := [], currentWaitIndex := 0,
                   reconnectTimeout := false } : EngineState)
            [Ev.subscribeEv "a" 1, Ev.subscribeEv "b" 2]).2.sent.length)) ∧
    List.Pairwise (· < ·)
      ((run ({ seqNo := 0, connected := true, listener := [], requests := [],
               currentWaitIndex := 0, reconnectTimeout := false } : EngineState)
        [Ev.subscribeEv "a" 1, Ev.subscribeEv "b" 2]).2.sent.map Prod.fst) :=
  c2_seq_monotonic_within_generation _ _ (by decide)

/-- **C2** counterexample: across a disconnect/reconnect cycle the
engine emits sequence numbers `[1, 2, 1, 2]` — `connect()` resets
`seqNo` to 0 — so an earlier send (seq 2) does NOT carry a strictly
smaller number than a later send (seq 1): the whole-lifetime
strict-increase claim fails. -/
theorem c2_counterexample :
    ((run initialState
        [Ev.connectCall, Ev.opened, Ev.subscribeEv "a" 1,
         Ev.subscribeEv "b" 2, Ev.errored, Ev.timerFired,
         Ev.opened]).2.sent.map Prod.fst = [1, 2, 1, 2]) ∧
    ¬ List.Pairwise (· < ·)
      ((run initialState
        [Ev.connectCall, Ev.opened, Ev.subscribeEv "a" 1,
         Ev.subscribeEv "b" 2, Ev.errored, Ev.timerFired,
         Ev.opened]).2.sent.map Prod.fst) := by
  decide

end Realtime

namespace Realtime

/-- Running a concatenation of event lists composes states and
concatenates outputs. -/
theorem run_append (l1 l2 : List Ev) (s : EngineState) :
    run s (l1 ++ l2)
      = ((run (run s l1).1 l2).1,
         ⟨(run s l1).2.sent ++ (run (run s l1).1 l2).2.sent,
          (run s l1).2.waits ++ (run (run s l1).1 l2).2.waits⟩) := by
  induction l1 generalizing s with
  | nil => simp [run]
  | cons e rest ih => simp [run, ih]

/-- State and scheduled waits after `n` consecutive connection failures:
the backoff index advances one step per failure, holding at the last
schedule entry, and the `n` scheduled waits walk the schedule. -/
theorem run_failTrace (n : Nat) :
    run initialState (failTrace n)
      = ({ seqNo := 0, connected := false, listener := [], requests := [],
           currentWaitIndex := min n 5, reconnectTimeout := false },
         ⟨[], (List.range n).map
            (fun i => FALLBACK_AND_WAIT_MS.getD (min i 5) 0)⟩) := by
  induction n with
  | zero => decide
  | succ m ih =>
    rw [failTrace, run_append, ih]
    rcases Nat.lt_or_ge m 5 with h5 | h5
    · have h1 : min m 5 = m := by omega
      have h2 : min (m + 1) 5 = m + 1 := by omega
      simp [run, step, reconnect, connect, FALLBACK_AND_WAIT_MS,
        List.range_succ, h1, h2, h5]
      rw [List.getElem?_eq_getElem (by simp; omega)]
      rfl
    · have h1 : min m 5 = 5 := by omega
      have h2 : min (m + 1) 5 = 5 := by omega
      simp [run, step, reconnect, connect, FALLBACK_AND_WAIT_MS,
        List.range_succ, h1, h2, Nat.not_lt.2 h5]

/-- **C6**: reconnect waits follow the fixed schedule
`[1000, 5000, 5000, 10000, 10000, 30000]` ms, advancing one step per
consecutive failure and holding at the final value: the `n` waits
scheduled by `n` consecutive failures are
`FALLBACK_AND_WAIT_MS[min i 5]` for `i < n` (so the 6th and every later
failure waits 30000 ms), and a successful connection resets the index so
that the next failure's wait is 1000 ms again. -/
theorem c6_backoff_schedule (n : Nat) :
    ((run initialState (failTrace n)).2.waits
      = (List.range n).map
          (fun i => FALLBACK_AND_WAIT_MS.getD (min i 5) 0)) ∧
    (∀ i, 5 ≤ i → i < n →
      (run initialState (failTrace n)).2.waits.getD i 0 = 30000) ∧
    (run initialState (failTrace n ++ [Ev.opened, Ev.errored])).2.waits
      = (run initialState (failTrace n)).2.waits ++ [1000] := by
  refine ⟨by rw [run_failTrace], ?_, ?_⟩
  · intro i h5 hn
    rw [run_failTrace]
    have hlen : i < ((List.range n).map
        (fun i => FALLBACK_AND_WAIT_MS.getD (min i 5) 0)).length := by
      simpa using hn
    rw [List.getD_eq_getElem _ _ hlen]
    simp only [List.getElem_map, List.getElem_range]
    have : min i 5 = 5 := by omega
    rw [this]
    rfl
  · rw [run_append, run_failTrace]
    simp [run, step, onopen, resubscribeToAll, sendOrQueueAll, flushQueue,
      sendAll, reconnect, connect, FALLBACK_AND_WAIT_MS]

/-- **C6** witness: with 7 consecutive failures, the 7th wait (index 6)
is 30000 ms. -/
theorem c6_backoff_schedule_witness :
    (run initialState (failTrace 7)).2.waits.getD 6 0 = 30000 :=
  (c6_backoff_schedule 7).2.1 6 (by decide) (by decide)

end Realtime

namespace Realtime

/-- After `this.listener[id] = cb`, looking up `id` yields `cb`. -/
theorem getListener_setListener_self (l : List (String × Nat)) (id : String)
    (cb : Nat) : getListener (setListener l id cb) id = some cb := by
  induction l with
  | nil => simp [setListener, getListener]
  | cons p rest ih =>
    obtain ⟨k, c⟩ := p
    by_cases h : k == id <;> simp [setListener, getListener, h, ih]

/-- After `delete this.listener[id]`, looking up `id` yields nothing. -/
theorem getListener_delListener_self (l : List (String × Nat))
    (id : String) : getListener (delListener l id) id = none := by
  induction l with
  | nil => simp [delListener, getListener]
  | cons p rest ih =>
    obtain ⟨k, c⟩ := p
    by_cases h : k == id <;>
      simp [delListener, getListener, h] at ih ⊢ <;> simpa [h] using ih

/-- Sending or queueing a command never touches the callback mapping. -/
theorem sendOrQueueRequest_listener (s : EngineState) (r : Request) :
    (sendOrQueueRequest s r).1.listener = s.listener := by
  by_cases h : s.connected <;> simp [sendOrQueueRequest, h, sendRequest]

/-- `subscribe` replaces the callback registered for the identifier. -/
theorem subscribe_listener (s : EngineState) (id : String) (cb : Nat) :
    (subscribe s id cb).1.listener = setListener s.listener id cb := by
  by_cases h : s.connected <;>
    simp [subscribe, h, sendOrQueueRequest, sendRequest]

/-- **C9**: inbound frame handling is total (never raises) and produces
no spurious delivery: a frame with fewer than 4 elements is ignored with
no invocations at all, and every invocation produced goes to the
callback currently registered for the delivered point's identifier — so
a sample whose derived identifier has no registered callback produces no
invocation. -/
theorem c9_inbound_frames_safe (listener : List (String × Nat))
    (data : List FrameItem) :
    (data.length < 4 → onmessage listener data = []) ∧
    (∀ cb pt, (cb, pt) ∈ onmessage listener data →
       getListener listener pt.id = some cb) := by
  constructor
  · intro h
    simp [onmessage, h]
  · intro cb pt hmem
    simp only [onmessage] at hmem
    split at hmem
    · simp at hmem
    · split at hmem
      · simp at hmem
      · split at hmem
        · rw [List.mem_filterMap] at hmem
          obtain ⟨smp, _, hsome⟩ := hmem
          cases hg : getListener listener (mkPoint smp).id with
          | none => rw [hg] at hsome; simp at hsome
          | some c =>
            rw [hg] at hsome
            simp only [Option.map_some'] at hsome
            obtain ⟨rfl, rfl⟩ := Prod.mk.injEq .. ▸ Option.some.inj hsome
            exact hg
        · simp at hmem

/-- **C9** witness: the theorem applied to a short (3-element) frame and
a registered listener. -/
theorem c9_inbound_frames_safe_witness :
    onmessage [("x", 7)]
      [FrameItem.numItem 1, FrameItem.numItem 1, FrameItem.numItem 0] = [] :=
  (c9_inbound_frames_safe [("x", 7)]
    [FrameItem.numItem 1, FrameItem.numItem 1, FrameItem.numItem 0]).1
    (by decide)

/-- **C10**: the unsubscribe handle captured at `subscribe(X, cb1)` time
removes whatever callback is currently registered for `X` when invoked:
after `subscribe(X, cb2)` replaced `cb1` (last subscribe wins), invoking
the stale handle removes `cb2`'s registration and an unsubscribe command
for `X` is sent (when connected) or queued (when not). -/
theorem c10_stale_handle_cancels_newer (s : EngineState) (id : String)
    (cb1 cb2 : Nat) :
    getListener (subscribe (subscribe s id cb1).1 id cb2).1.listener id
      = some cb2 ∧
    getListener
        (unsubscribeHandle (subscribe (subscribe s id cb1).1 id cb2).1
          id).1.listener id = none ∧
    (if (subscribe (subscribe s id cb1).1 id cb2).1.connected then
       (unsubscribeHandle (subscribe (subscribe s id cb1).1 id cb2).1
           id).2.map Prod.snd
         = [Request.unsubscribe (ObjectProvider.idToQualifiedName id)]
     else
       (unsubscribeHandle (subscribe (subscribe s id cb1).1 id cb2).1
           id).1.requests
         = (subscribe (subscribe s id cb1).1 id cb2).1.requests
           ++ [Request.unsubscribe (ObjectProvider.idToQualifiedName id)]) := by
  refine ⟨?_, ?_, ?_⟩
  · rw [subscribe_listener, getListener_setListener_self]
  · have h : (unsubscribeHandle (subscribe (subscribe s id cb1).1 id cb2).1
        id).1.listener
        = delListener
            (subscribe (subscribe s id cb1).1 id cb2).1.listener id := by
      simp [unsubscribeHandle, sendOrQueueRequest_listener]
    rw [h, getListener_delListener_self]
  · by_cases hc : (subscribe (subscribe s id cb1).1 id cb2).1.connected <;>
      simp [hc, unsubscribeHandle, sendOrQueueRequest, sendRequest]

end Realtime
